import Mathlib

/-!
Verification development for the EditorConfig VS Code extension
(JustinGrote/editorconfig-vscode), shallowly embedding `src/api.ts` and
`src/DocumentWatcher.ts`.

Modelling conventions:
* JavaScript runtime values held by the indentation option fields are
  modelled by `JSVal` (`undefined`, booleans, numbers, strings).  A field
  that is absent from an options object is modelled as `JSVal.undef`;
  this conflates "key present with value undefined" with "key absent",
  which is sound here because the only place key presence matters is
  `isDeepStrictEqual(newOptions, currentOptions)` and `currentOptions`
  never carries an undefined value, so object equality holds exactly when
  all three fields agree as `JSVal`s.
* Host interactions (the warning prompt, the bulk re-indentation command,
  error messages, configuration updates, and every assignment to
  `editor.options.*`) are recorded in an ordered `Event` trace.
* Reading `editor.options.insertSpaces` right after assigning it goes
  through the host, which may fail to apply a style flip; the boolean
  `host` argument says whether the host applied the `insertSpaces`
  assignment.  All other option assignments are modelled as plain state
  updates.
-/

namespace EditorConfigSpec

/-- A JavaScript runtime value as it can appear in the indentation option
fields: `undefined`, a boolean, a (natural) number, or a string.  The
symbolic match-tab indent size is the string value `"tabSize"`. -/
inductive JSVal where
  | undef
  | bool (b : Bool)
  | num (n : Nat)
  | str (s : String)
deriving DecidableEq, Repr

/-- JavaScript `typeof x === "boolean"`. -/
def JSVal.isBool : JSVal → Bool
  | .bool _ => true
  | _ => false

/-- JavaScript `typeof x === "number"`. -/
def JSVal.isNum : JSVal → Bool
  | .num _ => true
  | _ => false

/-- JavaScript nullish coalescing `a ?? b` (no `null` in this model, so
only `undefined` falls through). -/
def jsCoalesce (a b : JSVal) : JSVal :=
  if a = JSVal.undef then b else a

/-- The mutable `editor.options` object: fields can hold arbitrary runtime
values (the source assigns `undefined` and the string `"tabSize"` into
them on some paths). -/
structure EditorOptions where
  insertSpaces : JSVal
  tabSize : JSVal
  indentSize : JSVal
deriving DecidableEq, Repr

def EditorOptions.withInsertSpaces (o : EditorOptions) (v : JSVal) : EditorOptions :=
  ⟨v, o.tabSize, o.indentSize⟩

def EditorOptions.withTabSize (o : EditorOptions) (v : JSVal) : EditorOptions :=
  ⟨o.insertSpaces, v, o.indentSize⟩

def EditorOptions.withIndentSize (o : EditorOptions) (v : JSVal) : EditorOptions :=
  ⟨o.insertSpaces, o.tabSize, v⟩

/-- `TextEditorResolvedIndentationOptions` (api.ts lines 51-55): the
narrowed, fully resolved live state. -/
structure ResolvedOptions where
  insertSpaces : Bool
  tabSize : Nat
  indentSize : Nat
deriving DecidableEq, Repr

/-- `TextEditorIndentationOptions` (api.ts lines 290-294): the desired
indentation intent; `JSVal.undef` models an absent/undefined field. -/
structure Opts where
  indentSize : JSVal
  tabSize : JSVal
  insertSpaces : JSVal
deriving DecidableEq, Repr

/-- The all-undefined options object `\x7b\x7d`. -/
def Opts.empty : Opts := ⟨JSVal.undef, JSVal.undef, JSVal.undef⟩

def Opts.withIndentSize (o : Opts) (v : JSVal) : Opts :=
  ⟨v, o.tabSize, o.insertSpaces⟩

def Opts.withTabSize (o : Opts) (v : JSVal) : Opts :=
  ⟨o.indentSize, v, o.insertSpaces⟩

def Opts.withInsertSpaces (o : Opts) (v : JSVal) : Opts :=
  ⟨o.indentSize, o.tabSize, v⟩

/-- The EditorConfig property map (`editorconfig.KnownProps`), restricted
to the keys this code reads.  `JSVal.undef` models an absent key; the
explicit unset sentinel is the string value `"unset"`. -/
structure KnownProps where
  indent_style : JSVal
  indent_size : JSVal
  tab_width : JSVal
  end_of_line : JSVal
  trim_trailing_whitespace : JSVal
  insert_final_newline : JSVal
deriving DecidableEq, Repr

/-- The empty property map: no key defined. -/
def KnownProps.empty : KnownProps :=
  ⟨JSVal.undef, JSVal.undef, JSVal.undef, JSVal.undef, JSVal.undef, JSVal.undef⟩

/-- The workspace-scoped `editor` configuration consumed by the code:
`useTabSize` and `autoApply` policy booleans (read with truthiness),
`detectIndentation`, and the raw default `tabSize` / `indentSize` /
`insertSpaces` values. -/
structure EditorSettings where
  useTabSize : Bool
  autoApply : Bool
  detectIndentation : Bool
  tabSize : JSVal
  indentSize : JSVal
  insertSpaces : JSVal
deriving DecidableEq, Repr

/-- The value returned by the three-way `showWarningMessage` prompt:
`Yes`, `No`, `Always Apply For Workspace`, or the dialog was dismissed
(`undefined`). -/
inductive PromptChoice where
  | yes
  | no
  | alwaysApply
  | dismissed
deriving DecidableEq, Repr

/-- An observable host interaction performed by `applyTextEditorOptions`,
in program order. -/
inductive Event where
  | promptShown
  | autoApplyUpdated (value : Bool)
  | execIndentationToTabs
  | errorShown (msg : String)
  | writeInsertSpaces (v : JSVal)
  | writeTabSize (v : JSVal)
  | writeIndentSize (v : JSVal)
deriving DecidableEq, Repr

/-- The outcome of a (non-throwing) `applyTextEditorOptions` run: the
final `editor.options` state, the ordered event trace, and the final
`optionsToUpdate` diff object the run operated on. -/
structure ApplyResult where
  editor : EditorOptions
  events : List Event
  optionsToUpdate : Opts
deriving DecidableEq, Repr

/-- `toTextEditorResolvedIndentationOptions` (api.ts lines 58-75): throws
unless `insertSpaces` is a boolean and `tabSize`, `indentSize` are
numbers, checked in that order. -/
def toTextEditorResolvedIndentationOptions (o : EditorOptions) :
    Except String ResolvedOptions :=
  match o.insertSpaces, o.tabSize, o.indentSize with
  | JSVal.bool b, JSVal.num t, JSVal.num i => Except.ok ⟨b, t, i⟩
  | JSVal.bool _, JSVal.num _, _ => Except.error "Expected indentSize to be a number"
  | JSVal.bool _, _, _ => Except.error "Expected tabSize to be a number"
  | _, _, _ => Except.error "Expected insertSpaces to be a boolean"

/-- `getWorkspaceIndentationSettings` (api.ts lines 220-240): when
`detectIndentation` is on, return the empty object; otherwise the
workspace `tabSize` / `indentSize` / `insertSpaces` defaults. -/
def getWorkspaceIndentationSettings (s : EditorSettings) : Opts :=
  if s.detectIndentation then Opts.empty
  else ⟨s.indentSize, s.tabSize, s.insertSpaces⟩

/-- api.ts lines 101-148: compute the `optionsToUpdate` diff.  The source
mutates `newOptions.tabSize` when `newOptions.indentSize === 'tabSize'`
(line 120), so this returns both the diff and the mutated `newOptions`.
Note the `tabSize` block (lines 134-148) never compares against
`currentOptions.tabSize`. -/
def computeOptionsToUpdate (cur : ResolvedOptions) (n ws : Opts)
    (useTabSize : Bool) : Opts × Opts :=
  let u1 :=
    if n.insertSpaces ≠ JSVal.undef ∧ n.insertSpaces ≠ JSVal.bool cur.insertSpaces
    then Opts.empty.withInsertSpaces n.insertSpaces else Opts.empty
  let n1 :=
    if n.indentSize ≠ JSVal.undef ∧ n.indentSize = JSVal.str "tabSize"
    then n.withTabSize (jsCoalesce ws.tabSize (JSVal.num 4)) else n
  let u2 :=
    if n1.indentSize ≠ JSVal.undef ∧ n1.indentSize ≠ JSVal.num cur.indentSize
    then u1.withIndentSize n1.indentSize else u1
  let u3 :=
    if n1.tabSize ≠ JSVal.undef ∧ useTabSize = true
    then u2.withTabSize n1.tabSize else u2
  (u3, n1)

/-- api.ts lines 178-199: the style-conversion block.  When the diff
carries an `insertSpaces` change: run the bulk `indentationToTabs`
command when flipping to tabs, assign `editor.options.insertSpaces`
(applied by the host only when `host` is true), derive the fallback
`optionsToUpdate.tabSize` when switching to spaces with no explicit
`tabSize` in the diff, and assign `editor.options.tabSize`. -/
def applyConversion (editor : EditorOptions) (u n ws : Opts) (host : Bool) :
    EditorOptions × List Event × Opts :=
  if u.insertSpaces = JSVal.undef then (editor, [], u)
  else
    let cmdEvents :=
      if u.insertSpaces = JSVal.bool false then [Event.execIndentationToTabs] else []
    let editor1 :=
      editor.withInsertSpaces (if host then u.insertSpaces else editor.insertSpaces)
    let u1 :=
      if u.insertSpaces = JSVal.bool true ∧ u.tabSize = JSVal.undef then
        u.withTabSize (jsCoalesce u.indentSize (jsCoalesce n.indentSize
          (jsCoalesce ws.indentSize (jsCoalesce ws.tabSize (JSVal.num 4)))))
      else u
    let editor2 := editor1.withTabSize u1.tabSize
    (editor2,
     cmdEvents ++ [Event.writeInsertSpaces u.insertSpaces, Event.writeTabSize u1.tabSize],
     u1)

/-- api.ts lines 150-215: everything after the diff is computed.  Empty
diff returns silently; otherwise the three-way prompt is always shown;
`No`/dismissed ends the run; `Always Apply For Workspace` persists
`autoApply = true`; then the conversion block runs, the live
`insertSpaces` is compared against `optionsToUpdate.insertSpaces` (line
202) and on mismatch a user-visible error aborts the remaining writes;
finally `indentSize` is written and `tabSize` is assigned from
`optionsToUpdate.indentSize` (line 211). -/
def finishApply (editor0 : EditorOptions) (u n ws : Opts)
    (choice : PromptChoice) (host : Bool) : ApplyResult :=
  if u.insertSpaces = JSVal.undef ∧ u.indentSize = JSVal.undef ∧ u.tabSize = JSVal.undef then
    ⟨editor0, [], u⟩
  else if choice = PromptChoice.yes ∨ choice = PromptChoice.alwaysApply then
    let ev1 := [Event.promptShown] ++
      (if choice = PromptChoice.alwaysApply then [Event.autoApplyUpdated true] else [])
    let c := applyConversion editor0 u n ws host
    if c.1.insertSpaces = c.2.2.insertSpaces then
      let u1 := c.2.2
      let s1 : EditorOptions × List Event :=
        if u1.indentSize = JSVal.undef then (c.1, [])
        else ((c.1).withIndentSize u1.indentSize, [Event.writeIndentSize u1.indentSize])
      let s2 : EditorOptions × List Event :=
        if u1.tabSize = JSVal.undef then (s1.1, [])
        else ((s1.1).withTabSize u1.indentSize, [Event.writeTabSize u1.indentSize])
      ⟨s2.1, ev1 ++ c.2.1 ++ s1.2 ++ s2.2, u1⟩
    else
      ⟨c.1, ev1 ++ c.2.1 ++ [Event.errorShown "Failed to change editor indentation"], c.2.2⟩
  else ⟨editor0, [Event.promptShown], u⟩

/-- `applyTextEditorOptions` (api.ts lines 80-215).  Inputs: the live
`editor.options`, the desired intent `n`, the workspace `editor`
configuration, the user's prompt answer, and whether the host applies the
`insertSpaces` assignment.  Throws when the live options are not fully
resolved. -/
def applyTextEditorOptions (editor : EditorOptions) (n : Opts)
    (settings : EditorSettings) (choice : PromptChoice) (host : Bool) :
    Except String ApplyResult :=
  match toTextEditorResolvedIndentationOptions editor with
  | Except.error e => Except.error e
  | Except.ok cur =>
    let ws := getWorkspaceIndentationSettings settings
    if n.insertSpaces = JSVal.bool cur.insertSpaces ∧ n.tabSize = JSVal.num cur.tabSize ∧
       n.indentSize = JSVal.num cur.indentSize then
      Except.ok ⟨editor, [], Opts.empty⟩
    else
      let p := computeOptionsToUpdate cur n ws settings.useTabSize
      Except.ok (finishApply editor p.1 p.2 ws choice host)

/-- `fromEditorConfig` (api.ts lines 299-338): the property-map-to-intent
mapper.  A JavaScript `switch` on each key, i.e. sequential strict
equality tests with a pass-through default. -/
def fromEditorConfig (editorConfig : KnownProps) : Opts :=
  let insertSpaces :=
    if editorConfig.indent_style = JSVal.str "space" then JSVal.bool true
    else if editorConfig.indent_style = JSVal.str "tab" then JSVal.bool false
    else if editorConfig.indent_style = JSVal.str "unset" then JSVal.undef
    else editorConfig.indent_style
  let indentSize :=
    if editorConfig.indent_size = JSVal.str "tab" then JSVal.str "tabSize"
    else if editorConfig.indent_size = JSVal.str "unset" then JSVal.undef
    else editorConfig.indent_size
  let tabSize :=
    if editorConfig.tab_width = JSVal.str "unset" then JSVal.undef
    else editorConfig.tab_width
  ⟨indentSize, tabSize, insertSpaces⟩

/-- The outcome of `resolveEditorConfigOptions` (api.ts lines 17-48): the
returned intent and whether the `onEmptyConfig` report was emitted. -/
structure ResolveResult where
  options : Opts
  emptyConfigReported : Bool
deriving DecidableEq, Repr

/-- `resolveEditorConfigOptions` (api.ts lines 17-48).  The parse result
is an object (modelled `some map`, always truthy — even when the map is
empty) or a nullish value (`none`).  `onEmptyConfig` is invoked only on a
nullish result, and only when a relative path is available. -/
def resolveEditorConfigOptions (editorconfigSettings : Option KnownProps)
    (hasRelativePath : Bool) : ResolveResult :=
  match editorconfigSettings with
  | some s => ⟨fromEditorConfig s, false⟩
  | none => ⟨Opts.empty, hasRelativePath⟩

/-! ## Pre-save transformation pipeline

`DocumentWatcher.calculatePreSaveTransformations` (DocumentWatcher.ts
lines 112-143) and the fixed transformation list (lines 29-33) are in the
source.  The three transformation classes themselves live in
`src/transformations`, which is not under `src/`; they are modelled from
the spec below. -/

/-- A span replacement on the document text: replace the characters in
`[start, stop)` with `newText`. -/
structure TextEdit where
  start : Nat
  stop : Nat
  newText : String
deriving DecidableEq, Repr

/-- A transformation's edit outcome: a list of edits, or a failure
carrying a diagnostic message (the source tests `edits instanceof
Error`). -/
inductive EditsOrError where
  | failed (msg : String)
  | edits (es : List TextEdit)
deriving DecidableEq, Repr

/-- The `\x7b edits, message \x7d` object a transformation returns. -/
structure TransformResult where
  edits : EditsOrError
  message : Option String
deriving DecidableEq, Repr

/-- The line terminators of a character list, as (position, terminator)
pairs; `\r\n` counts as a single terminator. -/
def findTerminators : List Char → Nat → List (Nat × String)
  | [], _ => []
  | '\r' :: '\n' :: rest, i => (i, "\r\n") :: findTerminators rest (i + 2)
  | '\r' :: rest, i => (i, "\r") :: findTerminators rest (i + 1)
  | '\n' :: rest, i => (i, "\n") :: findTerminators rest (i + 1)
  | _ :: rest, i => findTerminators rest (i + 1)

/-- The maximal runs of spaces/tabs that sit at the end of a line (or of
the file), as `[start, stop)` spans.  The third argument carries the
start of the run currently being scanned. -/
def trailingRuns : List Char → Nat → Option Nat → List (Nat × Nat)
  | [], i, some s => [(s, i)]
  | [], _, none => []
  | c :: rest, i, acc =>
    if c = ' ' ∨ c = '\t' then trailingRuns rest (i + 1) (some (acc.getD i))
    else if c = '\n' ∨ c = '\r' then
      match acc with
      | some s => (s, i) :: trailingRuns rest (i + 1) none
      | none => trailingRuns rest (i + 1) none
    else trailingRuns rest (i + 1) none

/-- The terminator string for an `end_of_line` keyword. -/
def eolStringOf (s : String) : Option String :=
  if s = "lf" then some "\n"
  else if s = "crlf" then some "\r\n"
  else if s = "cr" then some "\r"
  else none

/-- Whether the document already ends with a line terminator. -/
def endsWithTerminator (doc : String) : Bool :=
  match doc.toList.getLast? with
  | some c => c = '\n' ∨ c = '\r'
  | none => false

/-- Modelled from the spec: the `SetEndOfLine` transformation
(`src/transformations` is not under `src/`).  Rewrites line terminators
to the configured `end_of_line` value if set; a no-op if the key is
absent, unset, or an unknown keyword; a failure on an unexpected value
type. -/
def setEndOfLine (props : KnownProps) (doc : String) (_reason : Nat) : TransformResult :=
  match props.end_of_line with
  | JSVal.undef => ⟨EditsOrError.edits [], none⟩
  | JSVal.str s =>
    if s = "unset" then ⟨EditsOrError.edits [], none⟩
    else
      match eolStringOf s with
      | some desired =>
        ⟨EditsOrError.edits ((findTerminators doc.toList 0).filterMap fun p =>
          if p.2 = desired then none
          else some ⟨p.1, p.1 + p.2.length, desired⟩), none⟩
      | none => ⟨EditsOrError.edits [], none⟩
  | _ => ⟨EditsOrError.failed "Unexpected end_of_line value", none⟩

/-- Modelled from the spec: the `TrimTrailingWhitespace` transformation
(`src/transformations` is not under `src/`).  Removes trailing space/tab
runs at line ends when `trim_trailing_whitespace` is `true`; a no-op when
the key is false, absent, or unset; a failure on an unexpected value
type. -/
def trimTrailingWhitespace (props : KnownProps) (doc : String) (_reason : Nat) :
    TransformResult :=
  match props.trim_trailing_whitespace with
  | JSVal.bool true =>
    ⟨EditsOrError.edits ((trailingRuns doc.toList 0 none).map fun r => ⟨r.1, r.2, ""⟩),
     none⟩
  | JSVal.bool false => ⟨EditsOrError.edits [], none⟩
  | JSVal.undef => ⟨EditsOrError.edits [], none⟩
  | JSVal.str "unset" => ⟨EditsOrError.edits [], none⟩
  | _ => ⟨EditsOrError.failed "Unexpected trim_trailing_whitespace value", none⟩

/-- Modelled from the spec: the `InsertFinalNewline` transformation
(`src/transformations` is not under `src/`).  Appends exactly one line
terminator when `insert_final_newline` is `true`, the document is
non-empty, and it does not already end with one; a no-op when the key is
false, absent, or unset; a failure on an unexpected value type. -/
def insertFinalNewline (props : KnownProps) (doc : String) (_reason : Nat) :
    TransformResult :=
  match props.insert_final_newline with
  | JSVal.bool true =>
    if doc ≠ "" ∧ endsWithTerminator doc = false then
      let eol :=
        match props.end_of_line with
        | JSVal.str "crlf" => "\r\n"
        | JSVal.str "cr" => "\r"
        | _ => "\n"
      ⟨EditsOrError.edits [⟨doc.length, doc.length, eol⟩], none⟩
    else ⟨EditsOrError.edits [], none⟩
  | JSVal.bool false => ⟨EditsOrError.edits [], none⟩
  | JSVal.undef => ⟨EditsOrError.edits [], none⟩
  | JSVal.str "unset" => ⟨EditsOrError.edits [], none⟩
  | _ => ⟨EditsOrError.failed "Unexpected insert_final_newline value", none⟩

/-- The fixed transformation list (DocumentWatcher.ts lines 29-33):
`SetEndOfLine`, then `TrimTrailingWhitespace`, then
`InsertFinalNewline`. -/
def preSaveTransformations : List (KnownProps → String → Nat → TransformResult) :=
  [setEndOfLine, trimTrailingWhitespace, insertFinalNewline]

/-- The edits a transformation result contributes to the collected set: a
failing transformation contributes none (DocumentWatcher.ts lines
133-136). -/
def contribEdits (r : TransformResult) : List TextEdit :=
  match r.edits with
  | EditsOrError.failed _ => []
  | EditsOrError.edits es => es

/-- The log lines a transformation result contributes: the failure
diagnostic, or the optional informational message (DocumentWatcher.ts
lines 133-139). -/
def contribLogs (r : TransformResult) : List String :=
  match r.edits with
  | EditsOrError.failed msg => [msg]
  | EditsOrError.edits _ =>
    match r.message with
    | some m => [m]
    | none => []

/-- The collected edit set and log lines of a pipeline run. -/
structure PipelineResult where
  edits : List TextEdit
  logs : List String
deriving DecidableEq, Repr

/-- `DocumentWatcher.calculatePreSaveTransformations` (DocumentWatcher.ts
lines 112-143): a nullish resolution result logs "no configuration" and
yields no edits (an object — even an empty one — is truthy and proceeds);
otherwise each transformation in the fixed list runs, failures contribute
zero edits plus a diagnostic, and the surviving edits are concatenated in
pipeline order. -/
def calculatePreSaveTransformations (editorconfigSettings : Option KnownProps)
    (doc : String) (reason : Nat) : PipelineResult :=
  match editorconfigSettings with
  | none => ⟨[], ["No configuration found for pre-save."]⟩
  | some settings =>
    let results := preSaveTransformations.map (fun t => t settings doc reason)
    ⟨results.foldr (fun r acc => contribEdits r ++ acc) [],
     results.foldr (fun r acc => contribLogs r ++ acc) []⟩

/-! ## Observation helpers on run results -/

/-- The event trace of a run (empty when the run threw). -/
def runEvents : Except String ApplyResult → List Event
  | Except.ok r => r.events
  | Except.error _ => []

/-- The final `editor.options` of a run, when it did not throw. -/
def runEditor : Except String ApplyResult → Option EditorOptions
  | Except.ok r => some r.editor
  | Except.error _ => none

/-- The final diff object of a run (empty when the run threw). -/
def runOptionsToUpdate : Except String ApplyResult → Opts
  | Except.ok r => r.optionsToUpdate
  | Except.error _ => Opts.empty

/-! ## Helper lemmas -/

lemma jsCoalesce_ne_undef (a b : JSVal) (hb : b ≠ JSVal.undef) :
    jsCoalesce a b ≠ JSVal.undef := by
  unfold jsCoalesce
  split_ifs with h
  · exact hb
  · exact h

lemma toResolved_ok_inv (o : EditorOptions) (cur : ResolvedOptions)
    (h : toTextEditorResolvedIndentationOptions o = Except.ok cur) :
    o.insertSpaces = JSVal.bool cur.insertSpaces ∧ o.tabSize = JSVal.num cur.tabSize ∧
    o.indentSize = JSVal.num cur.indentSize := by
  rcases o with ⟨a, b, c⟩
  cases a <;> cases b <;> cases c <;>
    simp_all [toTextEditorResolvedIndentationOptions]
  subst h
  exact ⟨rfl, rfl, rfl⟩

lemma compute_fst_insertSpaces (cur : ResolvedOptions) (n ws : Opts) (utb : Bool) :
    (computeOptionsToUpdate cur n ws utb).1.insertSpaces =
      if n.insertSpaces ≠ JSVal.undef ∧ n.insertSpaces ≠ JSVal.bool cur.insertSpaces
      then n.insertSpaces else JSVal.undef := by
  simp only [computeOptionsToUpdate]
  split_ifs <;>
    simp_all [Opts.withInsertSpaces, Opts.withIndentSize, Opts.withTabSize, Opts.empty]

lemma compute_fst_tabSize_false (cur : ResolvedOptions) (n ws : Opts) :
    (computeOptionsToUpdate cur n ws false).1.tabSize = JSVal.undef := by
  simp only [computeOptionsToUpdate]
  split_ifs <;>
    simp_all [Opts.withInsertSpaces, Opts.withIndentSize, Opts.withTabSize, Opts.empty]

lemma compute_snd_indentSize (cur : ResolvedOptions) (n ws : Opts) (utb : Bool) :
    (computeOptionsToUpdate cur n ws utb).2.indentSize = n.indentSize := by
  simp only [computeOptionsToUpdate]
  split_ifs <;> simp_all [Opts.withTabSize]

/-! ## Claim theorems -/

/-- C1 (code bug, failing input): with workspace policy `autoApply = true`
and a non-empty diff (live state uses spaces, the desired intent demands
tabs), `applyTextEditorOptions` still requests the three-way user prompt:
the code persists `autoApply` on "Always Apply For Workspace" but never
reads it back, so the prompt is never skipped.  The claim says that with
`autoApply = true` no prompt is requested and the changes are applied
directly; here the run consists of the prompt alone (the user dismissed
it) and nothing is applied. -/
theorem c1_autoApply_never_consulted :
    (⟨true, true, false, JSVal.num 4, JSVal.num 4,
      JSVal.bool true⟩ : EditorSettings).autoApply = true
  ∧ runEvents (applyTextEditorOptions ⟨JSVal.bool true, JSVal.num 4, JSVal.num 4⟩
      ⟨JSVal.undef, JSVal.undef, JSVal.bool false⟩
      ⟨true, true, false, JSVal.num 4, JSVal.num 4, JSVal.bool true⟩
      PromptChoice.dismissed true) = [Event.promptShown] := by
  exact ⟨rfl, rfl⟩

/-- C3 (code bug, failing input): a reconciliation whose diff contains
only an `indentSize` change (live `\x7b insertSpaces: true, tabSize: 4,
indentSize: 4 \x7d`, desired `indentSize = 2`), accepted by the user with
"Yes".  The claim says the "failed to change indentation" error is
surfaced only in the style-flip case and that size fields are applied
after the style is confirmed; but line 202 of api.ts compares the live
boolean `insertSpaces` against the diff's absent (`undefined`)
`insertSpaces`, which always differ, so the run surfaces the error and
aborts without ever writing `indentSize` — the editor state is
unchanged. -/
theorem c3_error_without_style_flip :
    runEvents (applyTextEditorOptions ⟨JSVal.bool true, JSVal.num 4, JSVal.num 4⟩
      ⟨JSVal.num 2, JSVal.undef, JSVal.undef⟩
      ⟨true, false, false, JSVal.num 4, JSVal.num 4, JSVal.bool true⟩
      PromptChoice.yes true)
      = [Event.promptShown, Event.errorShown "Failed to change editor indentation"]
  ∧ runEditor (applyTextEditorOptions ⟨JSVal.bool true, JSVal.num 4, JSVal.num 4⟩
      ⟨JSVal.num 2, JSVal.undef, JSVal.undef⟩
      ⟨true, false, false, JSVal.num 4, JSVal.num 4, JSVal.bool true⟩
      PromptChoice.yes true)
      = some ⟨JSVal.bool true, JSVal.num 4, JSVal.num 4⟩ := by
  exact ⟨rfl, rfl⟩

/-- C4 (code bug, failing input): live state `\x7b insertSpaces: true,
tabSize: 4, indentSize: 4 \x7d` and a desired intent defining only
`tabSize = 4` — equal to the live tab size — with policy
`useTabSize = true`.  The claim says the diff must be empty and zero
prompts occur; but the `tabSize` block (api.ts lines 134-148) never
compares the desired tab size against the live one, so the equal value
enters the diff and the user is prompted. -/
theorem c4_equal_tabSize_still_prompts :
    runEvents (applyTextEditorOptions ⟨JSVal.bool true, JSVal.num 4, JSVal.num 4⟩
      ⟨JSVal.undef, JSVal.num 4, JSVal.undef⟩
      ⟨true, false, false, JSVal.num 4, JSVal.num 4, JSVal.bool true⟩
      PromptChoice.no true) = [Event.promptShown]
  ∧ (computeOptionsToUpdate ⟨true, 4, 4⟩ ⟨JSVal.undef, JSVal.num 4, JSVal.undef⟩
      ⟨JSVal.num 4, JSVal.num 4, JSVal.bool true⟩ true).1.tabSize = JSVal.num 4 := by
  exact ⟨rfl, rfl⟩

/-- C2 (counterexample): property map `indent_size = tab`, workspace
default tab size 4, live state `\x7b insertSpaces: true, tabSize: 4,
indentSize: 4 \x7d`.  The claim says the desired `indentSize` used in the
diff equals 4 (so the diff would be empty here); in the code the desired
`indentSize` stays the symbolic string `"tabSize"`, enters the diff, and
the user is prompted. -/
theorem c2_symbolic_indentSize_not_resolved :
    (computeOptionsToUpdate ⟨true, 4, 4⟩
      (fromEditorConfig ⟨JSVal.undef, JSVal.str "tab", JSVal.undef,
        JSVal.undef, JSVal.undef, JSVal.undef⟩)
      ⟨JSVal.undef, JSVal.num 4, JSVal.undef⟩ true).1.indentSize = JSVal.str "tabSize"
  ∧ (computeOptionsToUpdate ⟨true, 4, 4⟩
      (fromEditorConfig ⟨JSVal.undef, JSVal.str "tab", JSVal.undef,
        JSVal.undef, JSVal.undef, JSVal.undef⟩)
      ⟨JSVal.undef, JSVal.num 4, JSVal.undef⟩ true).1.indentSize ≠ JSVal.num 4
  ∧ Event.promptShown ∈ runEvents (applyTextEditorOptions
      ⟨JSVal.bool true, JSVal.num 4, JSVal.num 4⟩
      (fromEditorConfig ⟨JSVal.undef, JSVal.str "tab", JSVal.undef,
        JSVal.undef, JSVal.undef, JSVal.undef⟩)
      ⟨true, false, false, JSVal.num 4, JSVal.undef, JSVal.undef⟩
      PromptChoice.no true) := by
  exact ⟨rfl, by decide, by decide⟩

/-- C2 (amended): when the desired intent's `indentSize` is the symbolic
`"tabSize"` value, the code does not resolve `indentSize`; instead it
overwrites the desired `tabSize` with the effective tab width (workspace
default tab size, falling back to 4) before the `tabSize` gating.  The
symbolic `indentSize` itself always enters the diff (it never equals the
numeric live value), and when `useTabSize` allows it the diff's `tabSize`
is the effective tab width. -/
theorem c2_amended_symbolic_resolution (cur : ResolvedOptions) (n ws : Opts)
    (utb : Bool) (h : n.indentSize = JSVal.str "tabSize") :
    (computeOptionsToUpdate cur n ws utb).2.tabSize = jsCoalesce ws.tabSize (JSVal.num 4)
  ∧ (computeOptionsToUpdate cur n ws utb).1.indentSize = JSVal.str "tabSize"
  ∧ (utb = true →
      (computeOptionsToUpdate cur n ws utb).1.tabSize = jsCoalesce ws.tabSize (JSVal.num 4)) := by
  have hne : jsCoalesce ws.tabSize (JSVal.num 4) ≠ JSVal.undef :=
    jsCoalesce_ne_undef _ _ (by simp)
  refine ⟨?_, ?_, ?_⟩
  · simp [computeOptionsToUpdate, h, Opts.withTabSize]
  · simp [computeOptionsToUpdate, h, Opts.withTabSize, Opts.withIndentSize,
      Opts.withInsertSpaces, Opts.empty]
    split_ifs <;> simp_all [Opts.withInsertSpaces, Opts.withIndentSize, Opts.withTabSize,
      Opts.empty]
  · intro hu
    simp [computeOptionsToUpdate, h, hu, hne, Opts.withTabSize, Opts.withIndentSize,
      Opts.withInsertSpaces, Opts.empty]

/-- C2 (witness for the amended claim): property map `indent_size = tab`
mapped to the symbolic intent, workspace default tab size 4,
`useTabSize = true`: the mutated desired `tabSize` and the diff's
`tabSize` are 4, while the diff's `indentSize` stays symbolic. -/
theorem c2_amended_symbolic_resolution_witness :
    (computeOptionsToUpdate ⟨true, 4, 4⟩ ⟨JSVal.str "tabSize", JSVal.undef, JSVal.undef⟩
      ⟨JSVal.undef, JSVal.num 4, JSVal.undef⟩ true).2.tabSize
      = jsCoalesce (JSVal.num 4) (JSVal.num 4)
  ∧ (computeOptionsToUpdate ⟨true, 4, 4⟩ ⟨JSVal.str "tabSize", JSVal.undef, JSVal.undef⟩
      ⟨JSVal.undef, JSVal.num 4, JSVal.undef⟩ true).1.indentSize = JSVal.str "tabSize"
  ∧ (computeOptionsToUpdate ⟨true, 4, 4⟩ ⟨JSVal.str "tabSize", JSVal.undef, JSVal.undef⟩
      ⟨JSVal.undef, JSVal.num 4, JSVal.undef⟩ true).1.tabSize
      = jsCoalesce (JSVal.num 4) (JSVal.num 4) := by
  obtain ⟨h1, h2, h3⟩ := c2_amended_symbolic_resolution ⟨true, 4, 4⟩
    ⟨JSVal.str "tabSize", JSVal.undef, JSVal.undef⟩
    ⟨JSVal.undef, JSVal.num 4, JSVal.undef⟩ true rfl
  exact ⟨h1, h2, h3 rfl⟩

/-- C9 (counterexample): configuration resolution yields an empty
property map (with a relative path available).  The claim says the
caller's "no configuration" report is emitted; in the code an empty map
is a truthy object, so `onEmptyConfig` is not invoked. -/
theorem c9_empty_map_not_reported :
    (resolveEditorConfigOptions (some KnownProps.empty) true).emptyConfigReported = false := by
  exact rfl

/-- C10: if the live editor options are not fully resolved —
`insertSpaces` is not a boolean, or `tabSize` or `indentSize` is not a
number — `applyTextEditorOptions` throws before any comparison, prompt,
or write: the run produces no final state and an empty event trace. -/
theorem c10_unresolved_live_state_throws (editor : EditorOptions) (n : Opts)
    (settings : EditorSettings) (choice : PromptChoice) (host : Bool)
    (h : editor.insertSpaces.isBool = false ∨ editor.tabSize.isNum = false ∨
      editor.indentSize.isNum = false) :
    runEditor (applyTextEditorOptions editor n settings choice host) = none
  ∧ runEvents (applyTextEditorOptions editor n settings choice host) = [] := by
  rcases editor with ⟨a, b, c⟩
  cases a <;> cases b <;> cases c <;>
    simp_all [JSVal.isBool, JSVal.isNum] <;>
    exact ⟨rfl, rfl⟩

/-- C7: `fromEditorConfig` is a pure mapper satisfying:
`indent_style = space` yields `insertSpaces = true`, `= tab` yields
`false`, `= unset` yields `undefined`, and any other value passes
through unchanged; `indent_size = tab` yields the symbolic `"tabSize"`
indent size, `= unset` yields `undefined`, numeric passes through;
`tab_width = unset` yields `undefined` and numeric passes through. -/
theorem c7_fromEditorConfig_mapper (p : KnownProps) :
    (p.indent_style = JSVal.str "space" →
      (fromEditorConfig p).insertSpaces = JSVal.bool true)
  ∧ (p.indent_style = JSVal.str "tab" →
      (fromEditorConfig p).insertSpaces = JSVal.bool false)
  ∧ (p.indent_style = JSVal.str "unset" →
      (fromEditorConfig p).insertSpaces = JSVal.undef)
  ∧ (p.indent_style ≠ JSVal.str "space" → p.indent_style ≠ JSVal.str "tab" →
      p.indent_style ≠ JSVal.str "unset" →
      (fromEditorConfig p).insertSpaces = p.indent_style)
  ∧ (p.indent_size = JSVal.str "tab" →
      (fromEditorConfig p).indentSize = JSVal.str "tabSize")
  ∧ (p.indent_size = JSVal.str "unset" →
      (fromEditorConfig p).indentSize = JSVal.undef)
  ∧ (∀ k : Nat, p.indent_size = JSVal.num k →
      (fromEditorConfig p).indentSize = JSVal.num k)
  ∧ (p.tab_width = JSVal.str "unset" →
      (fromEditorConfig p).tabSize = JSVal.undef)
  ∧ (∀ k : Nat, p.tab_width = JSVal.num k →
      (fromEditorConfig p).tabSize = JSVal.num k) := by
  refine ⟨?_, ?_, ?_, ?_, ?_, ?_, ?_, ?_, ?_⟩
  · intro h
    simp [fromEditorConfig, h]
  · intro h
    simp [fromEditorConfig, h]
  · intro h
    simp [fromEditorConfig, h]
  · intro h1 h2 h3
    simp [fromEditorConfig, h1, h2, h3]
  · intro h
    simp [fromEditorConfig, h]
  · intro h
    simp [fromEditorConfig, h]
  · intro k h
    simp [fromEditorConfig, h]
  · intro h
    simp [fromEditorConfig, h]
  · intro k h
    simp [fromEditorConfig, h]

/-- C7 (witness): the mapper evaluated on concrete property maps covering
each case (canonical values, unset sentinels, pass-through of a numeric
`indent_style`, numeric sizes). -/
theorem c7_fromEditorConfig_mapper_witness :
    (fromEditorConfig ⟨JSVal.str "space", JSVal.num 2, JSVal.num 8,
      JSVal.undef, JSVal.undef, JSVal.undef⟩).insertSpaces = JSVal.bool true
  ∧ (fromEditorConfig ⟨JSVal.str "tab", JSVal.str "unset", JSVal.num 3,
      JSVal.undef, JSVal.undef, JSVal.undef⟩).insertSpaces = JSVal.bool false
  ∧ (fromEditorConfig ⟨JSVal.str "unset", JSVal.num 2, JSVal.num 3,
      JSVal.undef, JSVal.undef, JSVal.undef⟩).insertSpaces = JSVal.undef
  ∧ (fromEditorConfig ⟨JSVal.num 7, JSVal.str "tab", JSVal.str "unset",
      JSVal.undef, JSVal.undef, JSVal.undef⟩).insertSpaces = JSVal.num 7
  ∧ (fromEditorConfig ⟨JSVal.num 7, JSVal.str "tab", JSVal.str "unset",
      JSVal.undef, JSVal.undef, JSVal.undef⟩).indentSize = JSVal.str "tabSize"
  ∧ (fromEditorConfig ⟨JSVal.str "tab", JSVal.str "unset", JSVal.num 3,
      JSVal.undef, JSVal.undef, JSVal.undef⟩).indentSize = JSVal.undef
  ∧ (fromEditorConfig ⟨JSVal.str "unset", JSVal.num 2, JSVal.num 3,
      JSVal.undef, JSVal.undef, JSVal.undef⟩).indentSize = JSVal.num 2
  ∧ (fromEditorConfig ⟨JSVal.num 7, JSVal.str "tab", JSVal.str "unset",
      JSVal.undef, JSVal.undef, JSVal.undef⟩).tabSize = JSVal.undef
  ∧ (fromEditorConfig ⟨JSVal.str "unset", JSVal.num 2, JSVal.num 3,
      JSVal.undef, JSVal.undef, JSVal.undef⟩).tabSize = JSVal.num 3 := by
  exact ⟨(c7_fromEditorConfig_mapper _).1 rfl,
    (c7_fromEditorConfig_mapper _).2.1 rfl,
    (c7_fromEditorConfig_mapper _).2.2.1 rfl,
    (c7_fromEditorConfig_mapper _).2.2.2.1 (by decide) (by decide) (by decide),
    (c7_fromEditorConfig_mapper _).2.2.2.2.1 rfl,
    (c7_fromEditorConfig_mapper _).2.2.2.2.2.1 rfl,
    (c7_fromEditorConfig_mapper _).2.2.2.2.2.2.1 2 rfl,
    (c7_fromEditorConfig_mapper _).2.2.2.2.2.2.2.1 rfl,
    (c7_fromEditorConfig_mapper _).2.2.2.2.2.2.2.2 3 rfl⟩

/-- C9 (amended): resolution returning any property map — including the
empty one — emits no "no configuration" report (the report fires only on
a nullish resolution result); with the empty map the resulting intent is
all-undefined, and reconciliation against any resolvable live state stops
with zero prompts, zero events, and the editor state untouched. -/
theorem c9_amended_empty_config (p : KnownProps) (hrp : Bool)
    (editor : EditorOptions) (settings : EditorSettings) (choice : PromptChoice)
    (host : Bool) (cur : ResolvedOptions)
    (hres : toTextEditorResolvedIndentationOptions editor = Except.ok cur) :
    resolveEditorConfigOptions (some p) hrp = ⟨fromEditorConfig p, false⟩
  ∧ resolveEditorConfigOptions none hrp = ⟨Opts.empty, hrp⟩
  ∧ applyTextEditorOptions editor (fromEditorConfig KnownProps.empty) settings choice host
      = Except.ok ⟨editor, [], Opts.empty⟩ := by
  refine ⟨rfl, rfl, ?_⟩
  have hfe : fromEditorConfig KnownProps.empty = Opts.empty := rfl
  rw [hfe]
  simp [applyTextEditorOptions, hres, computeOptionsToUpdate, finishApply,
    Opts.empty, Opts.withInsertSpaces, Opts.withIndentSize, Opts.withTabSize]

/-- C9 (witness for the amended claim): the empty map produces no report
and a run against live `\x7b insertSpaces: true, tabSize: 4, indentSize:
4 \x7d` is a silent no-op. -/
theorem c9_amended_empty_config_witness :
    resolveEditorConfigOptions (some KnownProps.empty) true
      = ⟨fromEditorConfig KnownProps.empty, false⟩
  ∧ resolveEditorConfigOptions none true = ⟨Opts.empty, true⟩
  ∧ applyTextEditorOptions ⟨JSVal.bool true, JSVal.num 4, JSVal.num 4⟩
      (fromEditorConfig KnownProps.empty)
      ⟨true, false, false, JSVal.num 4, JSVal.undef, JSVal.undef⟩ PromptChoice.yes true
      = Except.ok ⟨⟨JSVal.bool true, JSVal.num 4, JSVal.num 4⟩, [], Opts.empty⟩ :=
  c9_amended_empty_config KnownProps.empty true _ _ PromptChoice.yes true ⟨true, 4, 4⟩ rfl

/-- Helper for C5: a run whose diff is empty (and that is not caught by
the initial deep-equality early return) ends silently. -/
lemma finishApply_empty (editor0 : EditorOptions) (n ws : Opts)
    (choice : PromptChoice) (host : Bool) :
    finishApply editor0 Opts.empty n ws choice host = ⟨editor0, [], Opts.empty⟩ := by
  simp [finishApply, Opts.empty]

/-- C5: with workspace policy `useTabSize = false`, the `tabSize` field is
dropped from the diff unconditionally; a desired intent that differs from
the live state only in tab width produces a silent no-op run (no prompt,
no event, editor untouched); and a simultaneous `insertSpaces` difference
in the same policy setting still triggers the prompt. -/
theorem c5_useTabSize_policy_gating
    (editor : EditorOptions) (n : Opts) (settings : EditorSettings)
    (choice : PromptChoice) (host : Bool) (cur : ResolvedOptions)
    (hres : toTextEditorResolvedIndentationOptions editor = Except.ok cur)
    (hutb : settings.useTabSize = false) :
    (computeOptionsToUpdate cur n (getWorkspaceIndentationSettings settings)
      settings.useTabSize).1.tabSize = JSVal.undef
  ∧ ((n.insertSpaces = JSVal.undef ∨ n.insertSpaces = JSVal.bool cur.insertSpaces) →
     (n.indentSize = JSVal.undef ∨ n.indentSize = JSVal.num cur.indentSize) →
     applyTextEditorOptions editor n settings choice host
       = Except.ok ⟨editor, [], Opts.empty⟩)
  ∧ (∀ b : Bool, n.insertSpaces = JSVal.bool b → b ≠ cur.insertSpaces →
     Event.promptShown ∈ runEvents (applyTextEditorOptions editor n settings choice host)) := by
  refine ⟨?_, ?_, ?_⟩
  · rw [hutb]
    exact compute_fst_tabSize_false _ _ _
  · intro h1 h2
    by_cases hm : (n.insertSpaces = JSVal.bool cur.insertSpaces ∧
        n.tabSize = JSVal.num cur.tabSize ∧ n.indentSize = JSVal.num cur.indentSize)
    · simp [applyTextEditorOptions, hres, hm]
    · have hu : computeOptionsToUpdate cur n (getWorkspaceIndentationSettings settings)
          settings.useTabSize = (Opts.empty, n) := by
        rcases h1 with h1 | h1 <;> rcases h2 with h2 | h2 <;>
          simp [computeOptionsToUpdate, h1, h2, hutb, Opts.withInsertSpaces,
            Opts.withIndentSize, Opts.withTabSize, Opts.empty]
      simp [applyTextEditorOptions, hres, hm, hu, finishApply_empty]
  · intro b hb hneq
    have hm : ¬(n.insertSpaces = JSVal.bool cur.insertSpaces ∧
        n.tabSize = JSVal.num cur.tabSize ∧ n.indentSize = JSVal.num cur.indentSize) := by
      rintro ⟨h1, -, -⟩
      rw [hb] at h1
      injection h1 with h
      exact hneq h
    have hins : (computeOptionsToUpdate cur n (getWorkspaceIndentationSettings settings)
        settings.useTabSize).1.insertSpaces = JSVal.bool b := by
      rw [compute_fst_insertSpaces, if_pos]
      · exact hb
      · refine ⟨by rw [hb]; simp, ?_⟩
        rw [hb]
        intro hc
        injection hc with h
        exact hneq h
    have hne1 : ¬((computeOptionsToUpdate cur n (getWorkspaceIndentationSettings settings)
        settings.useTabSize).1.insertSpaces = JSVal.undef ∧
        (computeOptionsToUpdate cur n (getWorkspaceIndentationSettings settings)
          settings.useTabSize).1.indentSize = JSVal.undef ∧
        (computeOptionsToUpdate cur n (getWorkspaceIndentationSettings settings)
          settings.useTabSize).1.tabSize = JSVal.undef) := by
      rintro ⟨hc, -, -⟩
      rw [hins] at hc
      cases hc
    simp only [applyTextEditorOptions, hres]
    rw [if_neg hm]
    simp only [runEvents, finishApply]
    rw [if_neg hne1]
    split_ifs <;> simp [List.mem_append]

/-- C5 (witness): with `useTabSize = false`, an intent differing from
live state `\x7b insertSpaces: true, tabSize: 4, indentSize: 4 \x7d` only
in tab width (8 vs 4) runs silently, and an intent with a style
difference still prompts. -/
theorem c5_useTabSize_policy_gating_witness :
    (computeOptionsToUpdate ⟨true, 4, 4⟩ ⟨JSVal.num 4, JSVal.num 8, JSVal.undef⟩
      (getWorkspaceIndentationSettings
        ⟨false, false, false, JSVal.num 4, JSVal.undef, JSVal.undef⟩)
      (⟨false, false, false, JSVal.num 4, JSVal.undef,
        JSVal.undef⟩ : EditorSettings).useTabSize).1.tabSize = JSVal.undef
  ∧ applyTextEditorOptions ⟨JSVal.bool true, JSVal.num 4, JSVal.num 4⟩
      ⟨JSVal.num 4, JSVal.num 8, JSVal.undef⟩
      ⟨false, false, false, JSVal.num 4, JSVal.undef, JSVal.undef⟩ PromptChoice.yes true
      = Except.ok ⟨⟨JSVal.bool true, JSVal.num 4, JSVal.num 4⟩, [], Opts.empty⟩
  ∧ Event.promptShown ∈ runEvents (applyTextEditorOptions
      ⟨JSVal.bool true, JSVal.num 4, JSVal.num 4⟩
      ⟨JSVal.undef, JSVal.num 8, JSVal.bool false⟩
      ⟨false, false, false, JSVal.num 4, JSVal.undef, JSVal.undef⟩ PromptChoice.yes true) := by
  refine ⟨?_, ?_, ?_⟩
  · exact (c5_useTabSize_policy_gating ⟨JSVal.bool true, JSVal.num 4, JSVal.num 4⟩
      ⟨JSVal.num 4, JSVal.num 8, JSVal.undef⟩ _ PromptChoice.yes true ⟨true, 4, 4⟩ rfl rfl).1
  · exact (c5_useTabSize_policy_gating ⟨JSVal.bool true, JSVal.num 4, JSVal.num 4⟩
      ⟨JSVal.num 4, JSVal.num 8, JSVal.undef⟩ _ PromptChoice.yes true ⟨true, 4, 4⟩ rfl
      rfl).2.1 (Or.inl rfl) (Or.inr rfl)
  · exact (c5_useTabSize_policy_gating ⟨JSVal.bool true, JSVal.num 4, JSVal.num 4⟩
      ⟨JSVal.undef, JSVal.num 8, JSVal.bool false⟩ _ PromptChoice.yes true ⟨true, 4, 4⟩ rfl
      rfl).2.2 false rfl (by decide)

/-- Helper for C6: the conversion step on a switch-to-spaces diff with no
explicit tab size, fully evaluated. -/
lemma applyConversion_spaces (editor0 : EditorOptions) (u n ws : Opts) (host : Bool)
    (hsty : u.insertSpaces = JSVal.bool true) (htab : u.tabSize = JSVal.undef) :
    applyConversion editor0 u n ws host =
      ((editor0.withInsertSpaces
          (if host then JSVal.bool true else editor0.insertSpaces)).withTabSize
        (jsCoalesce u.indentSize (jsCoalesce n.indentSize
          (jsCoalesce ws.indentSize (jsCoalesce ws.tabSize (JSVal.num 4))))),
       [Event.writeInsertSpaces (JSVal.bool true),
        Event.writeTabSize (jsCoalesce u.indentSize (jsCoalesce n.indentSize
          (jsCoalesce ws.indentSize (jsCoalesce ws.tabSize (JSVal.num 4)))))],
       u.withTabSize (jsCoalesce u.indentSize (jsCoalesce n.indentSize
         (jsCoalesce ws.indentSize (jsCoalesce ws.tabSize (JSVal.num 4)))))) := by
  simp only [applyConversion]
  rw [hsty, htab]
  simp [Opts.withTabSize]

/-- Helper for C6: once the diff carries a switch to spaces with no
explicit tab size, the conversion step computes and writes the fallback
chain value. -/
lemma finishApply_spaces_fallback (editor0 : EditorOptions) (u n ws : Opts)
    (choice : PromptChoice) (host : Bool)
    (hchoice : choice = PromptChoice.yes ∨ choice = PromptChoice.alwaysApply)
    (hsty : u.insertSpaces = JSVal.bool true) (htab : u.tabSize = JSVal.undef) :
    Event.writeTabSize (jsCoalesce u.indentSize (jsCoalesce n.indentSize
      (jsCoalesce ws.indentSize (jsCoalesce ws.tabSize (JSVal.num 4)))))
        ∈ (finishApply editor0 u n ws choice host).events
  ∧ (finishApply editor0 u n ws choice host).optionsToUpdate.tabSize
      = jsCoalesce u.indentSize (jsCoalesce n.indentSize
        (jsCoalesce ws.indentSize (jsCoalesce ws.tabSize (JSVal.num 4)))) := by
  have hne1 : ¬(u.insertSpaces = JSVal.undef ∧ u.indentSize = JSVal.undef ∧
      u.tabSize = JSVal.undef) := by
    rintro ⟨hc, -, -⟩
    rw [hsty] at hc
    cases hc
  have hch : jsCoalesce u.indentSize (jsCoalesce n.indentSize
      (jsCoalesce ws.indentSize (jsCoalesce ws.tabSize (JSVal.num 4)))) ≠ JSVal.undef :=
    jsCoalesce_ne_undef _ _ (jsCoalesce_ne_undef _ _ (jsCoalesce_ne_undef _ _
      (jsCoalesce_ne_undef _ _ (by simp))))
  simp only [finishApply]
  rw [if_neg hne1, if_pos hchoice,
    applyConversion_spaces editor0 u n ws host hsty htab]
  simp only [Opts.withTabSize, Opts.withIndentSize, Opts.withInsertSpaces,
    EditorOptions.withInsertSpaces, EditorOptions.withTabSize, EditorOptions.withIndentSize]
  split_ifs <;> simp_all [List.mem_append]

/-- C6: whenever the computed diff switches the style to spaces
(`insertSpaces = true`) and contains no explicit `tabSize`, the tab size
written to the editor at the conversion step — and recorded as the diff's
`tabSize` — is the first defined value of, in order: the diff's own
`indentSize`, the desired intent's `indentSize`, the workspace default
indent size, the workspace default tab size, and the constant 4. -/
theorem c6_spaces_fallback_tab_size
    (editor : EditorOptions) (n : Opts) (settings : EditorSettings)
    (choice : PromptChoice) (host : Bool) (cur : ResolvedOptions)
    (hres : toTextEditorResolvedIndentationOptions editor = Except.ok cur)
    (hchoice : choice = PromptChoice.yes ∨ choice = PromptChoice.alwaysApply)
    (hsty : (computeOptionsToUpdate cur n (getWorkspaceIndentationSettings settings)
      settings.useTabSize).1.insertSpaces = JSVal.bool true)
    (htab : (computeOptionsToUpdate cur n (getWorkspaceIndentationSettings settings)
      settings.useTabSize).1.tabSize = JSVal.undef) :
    Event.writeTabSize (jsCoalesce
        (computeOptionsToUpdate cur n (getWorkspaceIndentationSettings settings)
          settings.useTabSize).1.indentSize
        (jsCoalesce n.indentSize
          (jsCoalesce (getWorkspaceIndentationSettings settings).indentSize
            (jsCoalesce (getWorkspaceIndentationSettings settings).tabSize (JSVal.num 4)))))
      ∈ runEvents (applyTextEditorOptions editor n settings choice host)
  ∧ (runOptionsToUpdate (applyTextEditorOptions editor n settings choice host)).tabSize
      = jsCoalesce
        (computeOptionsToUpdate cur n (getWorkspaceIndentationSettings settings)
          settings.useTabSize).1.indentSize
        (jsCoalesce n.indentSize
          (jsCoalesce (getWorkspaceIndentationSettings settings).indentSize
            (jsCoalesce (getWorkspaceIndentationSettings settings).tabSize (JSVal.num 4)))) := by
  have hmm : ¬(n.insertSpaces = JSVal.bool cur.insertSpaces ∧
      n.tabSize = JSVal.num cur.tabSize ∧ n.indentSize = JSVal.num cur.indentSize) := by
    rintro ⟨h1, -, -⟩
    rw [compute_fst_insertSpaces] at hsty
    simp [h1] at hsty
  have key := finishApply_spaces_fallback editor
    (computeOptionsToUpdate cur n (getWorkspaceIndentationSettings settings)
      settings.useTabSize).1
    (computeOptionsToUpdate cur n (getWorkspaceIndentationSettings settings)
      settings.useTabSize).2
    (getWorkspaceIndentationSettings settings) choice host hchoice hsty htab
  rw [compute_snd_indentSize] at key
  simp only [applyTextEditorOptions, hres]
  rw [if_neg hmm]
  simp only [runEvents, runOptionsToUpdate]
  exact key

/-- C6 (witness): live state all-tabs `\x7b insertSpaces: false, tabSize:
4, indentSize: 4 \x7d`, intent `insertSpaces = true` with no sizes,
workspace default tab size 8: the conversion step writes tab size 8 and
the diff records it. -/
theorem c6_spaces_fallback_tab_size_witness :
    Event.writeTabSize (JSVal.num 8) ∈ runEvents (applyTextEditorOptions
      ⟨JSVal.bool false, JSVal.num 4, JSVal.num 4⟩
      ⟨JSVal.undef, JSVal.undef, JSVal.bool true⟩
      ⟨true, false, false, JSVal.num 8, JSVal.undef, JSVal.undef⟩ PromptChoice.yes true)
  ∧ (runOptionsToUpdate (applyTextEditorOptions
      ⟨JSVal.bool false, JSVal.num 4, JSVal.num 4⟩
      ⟨JSVal.undef, JSVal.undef, JSVal.bool true⟩
      ⟨true, false, false, JSVal.num 8, JSVal.undef, JSVal.undef⟩ PromptChoice.yes true)).tabSize
      = JSVal.num 8 :=
  c6_spaces_fallback_tab_size ⟨JSVal.bool false, JSVal.num 4, JSVal.num 4⟩
    ⟨JSVal.undef, JSVal.undef, JSVal.bool true⟩
    ⟨true, false, false, JSVal.num 8, JSVal.undef, JSVal.undef⟩ PromptChoice.yes true
    ⟨false, 4, 4⟩ rfl (Or.inl rfl) (by decide) (by decide)

/-- C8: the pre-save pipeline always runs its three transformations in
the fixed order line-ending normalizer, trailing-whitespace trimmer,
final-newline inserter, concatenating each one's contributed edits in
that order, where a failing transformation contributes zero edits and its
diagnostic message while the siblings still contribute; concretely, with
`trim_trailing_whitespace` set to the unexpected value `5` and
`insert_final_newline = true` on `"a \nb"`, the trimmer fails with a
diagnostic and the final-newline inserter still contributes its edit. -/
theorem c8_pipeline_order_and_isolation (p : KnownProps) (doc : String) (reason : Nat) :
    (calculatePreSaveTransformations (some p) doc reason).edits
      = contribEdits (setEndOfLine p doc reason)
        ++ contribEdits (trimTrailingWhitespace p doc reason)
        ++ contribEdits (insertFinalNewline p doc reason)
  ∧ (calculatePreSaveTransformations (some p) doc reason).logs
      = contribLogs (setEndOfLine p doc reason)
        ++ contribLogs (trimTrailingWhitespace p doc reason)
        ++ contribLogs (insertFinalNewline p doc reason)
  ∧ calculatePreSaveTransformations
      (some ⟨JSVal.undef, JSVal.undef, JSVal.undef, JSVal.undef, JSVal.num 5,
        JSVal.bool true⟩) "a \nb" 1
      = ⟨[⟨4, 4, "\n"⟩], ["Unexpected trim_trailing_whitespace value"]⟩ := by
  refine ⟨?_, ?_, by decide⟩ <;>
    simp [calculatePreSaveTransformations, preSaveTransformations]

/-- C10 (witness): a live state whose `insertSpaces` is `undefined`
throws. -/
theorem c10_unresolved_live_state_throws_witness :
    runEditor (applyTextEditorOptions ⟨JSVal.undef, JSVal.num 4, JSVal.num 4⟩ Opts.empty
      ⟨true, false, false, JSVal.num 4, JSVal.undef, JSVal.undef⟩ PromptChoice.yes true) = none
  ∧ runEvents (applyTextEditorOptions ⟨JSVal.undef, JSVal.num 4, JSVal.num 4⟩ Opts.empty
      ⟨true, false, false, JSVal.num 4, JSVal.undef, JSVal.undef⟩ PromptChoice.yes true) = [] :=
  c10_unresolved_live_state_throws _ _ _ _ _ (Or.inl rfl)

end EditorConfigSpec
